import Mathlib

/-!
# Verification of `wandb/sdk/launch/launch.py`

A shallow embedding of the launch supervisor module
(`src/wandb/sdk/launch/launch.py`) and proofs about its claims.

The module under study orchestrates one ad-hoc launch:
`run` injects docker network arguments for locally hosted base URLs,
delegates to `_run` (which builds a run spec, resolves a project, loads a
backend by resource name, and submits the project), then blocks in
`_wait_for` when synchronous.

Collaborators imported by the module but not part of the repository slice
(`construct_run_spec`, `create_project_from_spec`,
`fetch_and_validate_project`, `loader.load_backend` / `loader.WANDB_RUNNERS`,
`api.push_to_run_queue`, `_is_wandb_local_uri`) are modelled abstractly from
the specification: they are fields of an environment record, so every
theorem quantifies over their behaviour.

Exceptions are modelled explicitly: Python's `except Exception` clause
catches only subclasses of `Exception`, while `KeyboardInterrupt` derives
from `BaseException` directly and is caught only by
`except KeyboardInterrupt` (or broader `BaseException` clauses).
Side effects are modelled as an event trace.
-/

namespace Launch

/-- Python exceptions relevant to the module.  `exceptionSubclass`
records whether the exception class derives from `Exception` (and is hence
caught by `except Exception`): `KeyboardInterrupt` derives only from
`BaseException`, while `ExecutionException` and `LaunchException`
(from `wandb.errors`) derive from `Exception`, as does any ordinary error. -/
inductive PyExc where
  | keyboardInterrupt : PyExc
  | executionException (msg : String) : PyExc
  | launchException (msg : String) : PyExc
  | otherError (exceptionSubclass : Bool) (name : String) : PyExc
deriving DecidableEq, Repr

/-- Whether Python's `except Exception` clause catches this exception:
true exactly when the class derives from `Exception`.
`KeyboardInterrupt` derives from `BaseException` only. -/
def PyExc.isExceptionSubclass : PyExc → Bool
  | .keyboardInterrupt => false
  | .executionException _ => true
  | .launchException _ => true
  | .otherError b _ => b

/-- Observable events of one call into the module, in program order:
the four pipeline stages of `_run`, the backend submission, and the
`wait()` / `cancel()` calls on the submitted run handle. -/
inductive Event where
  | constructRunSpec : Event
  | createProjectFromSpec : Event
  | fetchAndValidateProject : Event
  | loadBackend : Event
  | backendRun : Event
  | waitCalled : Event
  | cancelCalled : Event
deriving DecidableEq, Repr

/-- Behaviour of `AbstractRun.wait()` on a handle: it either returns a
success boolean or an exception escapes from the blocked wait. -/
inductive WaitBehavior where
  | returns (b : Bool) : WaitBehavior
  | raises (e : PyExc) : WaitBehavior
deriving DecidableEq, Repr

/-- A submitted run handle (`AbstractRun`), reduced to the behaviour its
`wait()` call will exhibit; `cancel()` is recorded in the trace. -/
structure Handle where
  wait : WaitBehavior
deriving DecidableEq, Repr

/-- A backend (`AbstractRunner`): `run` submits a project and returns a
handle.  `π` is the (opaque) type of resolved projects. -/
structure Backend (π : Type) where
  run : π → Handle

/-- Docker arguments: a Python `dict` of string keys, modelled as an
association list in insertion order with no duplicate keys. -/
abbrev DockerArgs : Type := List (String × String)

/-- Python `dict` item assignment `d[k] = v`: overwrite the value in place
when the key is present (order preserved), append otherwise. -/
def dictInsert (k v : String) : DockerArgs → DockerArgs
  | [] => [(k, v)]
  | (k2, v2) :: rest =>
      if k2 = k then (k, v) :: rest else (k2, v2) :: dictInsert k v rest

/-- Python `dict` lookup `d.get(k)`: the value of the first (and only)
entry with key `k`, if present. -/
def dictGet (k : String) : DockerArgs → Option String
  | [] => none
  | (k2, v2) :: rest => if k2 = k then some v2 else dictGet k rest

/-- Modelled from the spec: the collaborators imported by
`wandb/sdk/launch/launch.py` whose definitions are outside the repository
slice.  `σ` is the run-spec type produced by `construct_run_spec`,
`π` the project type of `create_project_from_spec` /
`fetch_and_validate_project`.  `runners` is `loader.WANDB_RUNNERS`, the
static case-exact name-to-backend registry, so `runners.map Prod.fst` is
its key list (distinct, as keys of a Python dict). -/
structure LaunchEnv (σ π : Type) where
  construct_run_spec : String → σ
  create_project_from_spec : σ → π
  fetch_and_validate_project : π → π
  runners : List (String × Backend π)

/-- Modelled from the spec: `loader.load_backend(resource, api, config)` —
case-exact lookup in the static registry, `none` (Python `None`) when the
resource name is unknown. -/
def load_backend {σ π : Type} (env : LaunchEnv σ π) (resource : String) :
    Option (Backend π) :=
  match env.runners.find? (fun p => p.fst = resource) with
  | some p => some p.snd
  | none => none

/-- The error message of `_run` for an unknown resource, from the format
string `"Unavailable backend {}, available backends: {}"` applied to the
resource name and `", ".join(loader.WANDB_RUNNERS.keys())`. -/
def unavailableMessage (resource : String) (names : List String) : String :=
  "Unavailable backend " ++ resource ++ ", available backends: " ++
    String.intercalate ", " names

/-- `_run(uri, ..., resource, ...)`: builds the run spec, resolves and
validates the project, loads the backend, and submits.  Returns the event
trace and either the submitted handle or the exception raised.  Raises
`ExecutionException` naming the resource and enumerating the registered
backends when `load_backend` returns `None`. -/
def _run {σ π : Type} (env : LaunchEnv σ π) (uri : String)
    (resource : String) : List Event × Except PyExc Handle :=
  let run_spec := env.construct_run_spec uri
  let project := env.create_project_from_spec run_spec
  let project2 := env.fetch_and_validate_project project
  match load_backend env resource with
  | some backend =>
      ([.constructRunSpec, .createProjectFromSpec, .fetchAndValidateProject,
        .loadBackend, .backendRun], .ok (backend.run project2))
  | none =>
      ([.constructRunSpec, .createProjectFromSpec, .fetchAndValidateProject,
        .loadBackend],
       .error (.executionException
         (unavailableMessage resource (env.runners.map Prod.fst))))

/-- `_wait_for(submitted_run_obj)`: calls `wait()` inside a
`try`/`except KeyboardInterrupt` block.  `wait()` returning `False` raises
`ExecutionException("Submitted run failed")` (inside the `try`, but not
caught: the clause catches only `KeyboardInterrupt`).  On
`KeyboardInterrupt` the handle's `cancel()` is called and the interrupt
re-raised; any other exception escaping `wait()` propagates unchanged. -/
def _wait_for (h : Handle) : List Event × Except PyExc Unit :=
  match h.wait with
  | .returns true => ([.waitCalled], .ok ())
  | .returns false =>
      ([.waitCalled], .error (.executionException "Submitted run failed"))
  | .raises .keyboardInterrupt =>
      ([.waitCalled, .cancelCalled], .error .keyboardInterrupt)
  | .raises e => ([.waitCalled], .error e)

/-- The docker-argument injection of `run`: when the base URL is locally
hosted (`_is_wandb_local_uri`), on `win32` set `net=host`, on any other
platform set `network=host`; additionally on `linux`/`linux2` set
`add-host=host.docker.internal:host-gateway`.  `docker_args=None` defaults
to the empty dict.  Without a local base URL the dict is untouched. -/
def run_docker_args (isLocalUrl : Bool) (platform : String)
    (docker_args : Option DockerArgs) : DockerArgs :=
  let d := docker_args.getD []
  if isLocalUrl then
    let d :=
      if platform = "win32" then dictInsert "net" "host" d
      else dictInsert "network" "host" d
    if platform = "linux" ∨ platform = "linux2" then
      dictInsert "add-host" "host.docker.internal:host-gateway" d
    else d
  else d

instance {ε α : Type} [DecidableEq ε] [DecidableEq α] :
    DecidableEq (Except ε α) := fun x y =>
  match x, y with
  | .ok a, .ok b =>
      if h : a = b then .isTrue (by rw [h]) else .isFalse (by simp [h])
  | .ok _, .error _ => .isFalse (by simp)
  | .error _, .ok _ => .isFalse (by simp)
  | .error e, .error f =>
      if h : e = f then .isTrue (by rw [h]) else .isFalse (by simp [h])

/-- The outcome of one `run(...)` call: the final docker-argument dict
(the caller's dict, mutated in place by the injection), the event trace,
and either the returned handle or the exception raised. -/
structure RunResult where
  dockerArgs : DockerArgs
  trace : List Event
  outcome : Except PyExc Handle
deriving DecidableEq, Repr

/-- `run(uri, api, ..., synchronous)`: injects docker arguments, calls
`_run`, and then — only after `_run` has returned — branches on
`synchronous` (`Optional[bool]`, truthy exactly when `True`): when truthy
it blocks in `_wait_for`, otherwise it raises
`LaunchException("Non synchronous mode not supported")`.
`isLocalUrl` stands for `_is_wandb_local_uri(api.settings("base_url"))`
and `platform` for `sys.platform`. -/
def run {σ π : Type} (env : LaunchEnv σ π) (platform : String)
    (isLocalUrl : Bool) (uri : String) (docker_args : Option DockerArgs)
    (resource : String) (synchronous : Option Bool) : RunResult :=
  let da := run_docker_args isLocalUrl platform docker_args
  match _run env uri resource with
  | (tr, .error e) => ⟨da, tr, .error e⟩
  | (tr, .ok h) =>
      if synchronous.getD false then
        match _wait_for h with
        | (tr2, .ok ()) => ⟨da, tr ++ tr2, .ok h⟩
        | (tr2, .error e) => ⟨da, tr ++ tr2, .error e⟩
      else
        ⟨da, tr,
          .error (.launchException "Non synchronous mode not supported")⟩

/-- `push_to_queue(api, queue, run_spec)`: calls
`api.push_to_run_queue(queue, run_spec)` inside `try`/`except Exception`.
An exception deriving from `Exception` is printed and `None` is returned;
an exception outside the `Exception` hierarchy (e.g. `KeyboardInterrupt`)
is not caught and propagates.  On success the API result is returned
unchanged.  `apiCall` stands for the bound behaviour of
`api.push_to_run_queue` on the given queue and run spec. -/
def push_to_queue {ρ : Type} (apiCall : Except PyExc ρ) :
    Except PyExc (Option ρ) :=
  match apiCall with
  | .ok res => .ok (some res)
  | .error e => if e.isExceptionSubclass then .ok none else .error e

/-- The handle produced by a successful `_run`: the backend found for the
resource, applied to the fully resolved project of the pipeline. -/
def pipelineHandle {σ π : Type} (env : LaunchEnv σ π) (b : Backend π)
    (uri : String) : Handle :=
  b.run (env.fetch_and_validate_project
    (env.create_project_from_spec (env.construct_run_spec uri)))

/-- A stub backend whose submitted handle's `wait()` has behaviour `w`. -/
def stubBackend (w : WaitBehavior) : Backend Unit :=
  ⟨fun _ => ⟨w⟩⟩

/-- A concrete environment: trivial spec/project stages and a registry
holding the single built-in `local` backend (a stub with `wait()`
behaviour `w`). -/
def stubEnv (w : WaitBehavior) : LaunchEnv Unit Unit :=
  ⟨fun _ => (), fun _ => (), fun p => p, [("local", stubBackend w)]⟩

/-! ## Helper lemmas -/

theorem dictGet_dictInsert_self (k v : String) (d : DockerArgs) :
    dictGet k (dictInsert k v d) = some v := by
  induction d with
  | nil => simp [dictInsert, dictGet]
  | cons hd tl ih =>
    obtain ⟨k2, v2⟩ := hd
    by_cases h : k2 = k
    · simp [dictInsert, dictGet, h]
    · simp [dictInsert, dictGet, h, ih]

theorem dictGet_dictInsert_ne (k k2 v : String) (d : DockerArgs)
    (hne : k ≠ k2) : dictGet k (dictInsert k2 v d) = dictGet k d := by
  induction d with
  | nil => simp [dictInsert, dictGet, Ne.symm hne]
  | cons hd tl ih =>
    obtain ⟨k3, v3⟩ := hd
    by_cases h : k3 = k2
    · simp [dictInsert, dictGet, h, Ne.symm hne]
    · simp [dictInsert, dictGet, h, ih]

theorem load_backend_eq_none {σ π : Type} (env : LaunchEnv σ π)
    (resource : String) (h : resource ∉ env.runners.map Prod.fst) :
    load_backend env resource = none := by
  unfold load_backend
  cases hf : env.runners.find? (fun p => p.fst = resource) with
  | none => rfl
  | some p =>
    exfalso
    have hp : p.fst = resource := by
      have := List.find?_some hf
      simpa using this
    exact h (hp ▸ List.mem_map_of_mem Prod.fst (List.mem_of_find?_eq_some hf))

theorem _run_ok {σ π : Type} (env : LaunchEnv σ π) (uri resource : String)
    (b : Backend π) (hb : load_backend env resource = some b) :
    _run env uri resource =
      ([.constructRunSpec, .createProjectFromSpec, .fetchAndValidateProject,
        .loadBackend, .backendRun], .ok (pipelineHandle env b uri)) := by
  simp [_run, pipelineHandle, hb]

theorem _run_none {σ π : Type} (env : LaunchEnv σ π) (uri resource : String)
    (hn : load_backend env resource = none) :
    _run env uri resource =
      ([.constructRunSpec, .createProjectFromSpec, .fetchAndValidateProject,
        .loadBackend],
       .error (.executionException
         (unavailableMessage resource (env.runners.map Prod.fst)))) := by
  simp [_run, hn]

theorem run_dockerArgs {σ π : Type} (env : LaunchEnv σ π)
    (platform : String) (isLocalUrl : Bool) (uri : String)
    (docker_args : Option DockerArgs) (resource : String)
    (synchronous : Option Bool) :
    (run env platform isLocalUrl uri docker_args resource
        synchronous).dockerArgs =
      run_docker_args isLocalUrl platform docker_args := by
  unfold run
  rcases h : _run env uri resource with ⟨tr, exc⟩
  cases exc with
  | error e => simp
  | ok hd =>
    by_cases hs : Option.getD synchronous false
    · rcases hw : _wait_for hd with ⟨tr2, r⟩
      cases r with
      | ok u => cases u; simp [hs, hw]
      | error e => simp [hs, hw]
    · simp [hs]

/-! ## Claims -/

/-- C1: for a synchronous `run()` blocked in `wait()`, a
`KeyboardInterrupt` delivered during the blocked `wait()` results in
exactly one `cancel()` call on the active handle, after which the
interrupt is re-raised to the caller (not suppressed). -/
theorem run_interrupt_cancels_once {σ π : Type} (env : LaunchEnv σ π)
    (platform uri resource : String) (isLocalUrl : Bool)
    (da : Option DockerArgs) (b : Backend π)
    (hb : load_backend env resource = some b)
    (hw : (pipelineHandle env b uri).wait = .raises .keyboardInterrupt) :
    (run env platform isLocalUrl uri da resource (some true)).trace =
      [.constructRunSpec, .createProjectFromSpec, .fetchAndValidateProject,
       .loadBackend, .backendRun, .waitCalled, .cancelCalled]
    ∧ (run env platform isLocalUrl uri da resource (some true)).trace.count
        .cancelCalled = 1
    ∧ (run env platform isLocalUrl uri da resource (some true)).outcome =
        .error .keyboardInterrupt := by
  have h1 : _wait_for (pipelineHandle env b uri) =
      ([.waitCalled, .cancelCalled], .error .keyboardInterrupt) := by
    simp [_wait_for, hw]
  refine ⟨?_, ?_, ?_⟩ <;>
    simp [run, _run_ok env uri resource b hb, h1, List.count_cons]

/-- Witness for C1 at the stub environment whose handle's `wait()` raises
`KeyboardInterrupt`. -/
theorem run_interrupt_cancels_once_witness :
    (run (stubEnv (.raises .keyboardInterrupt)) "linux" true "file:///proj"
        none "local" (some true)).trace =
      [.constructRunSpec, .createProjectFromSpec, .fetchAndValidateProject,
       .loadBackend, .backendRun, .waitCalled, .cancelCalled]
    ∧ (run (stubEnv (.raises .keyboardInterrupt)) "linux" true "file:///proj"
        none "local" (some true)).trace.count .cancelCalled = 1
    ∧ (run (stubEnv (.raises .keyboardInterrupt)) "linux" true "file:///proj"
        none "local" (some true)).outcome = .error .keyboardInterrupt :=
  run_interrupt_cancels_once (stubEnv (.raises .keyboardInterrupt)) "linux"
    "file:///proj" "local" true none
    (stubBackend (.raises .keyboardInterrupt)) rfl rfl

/-- C2 counterexample: with `synchronous := False`, `run()` does raise
`LaunchException("Non synchronous mode not supported")`, but only after
the backend submission has already happened: `backendRun` (and the whole
pipeline) is in the trace, refuting "before any backend submission occurs,
leaving no side effects". -/
theorem run_async_counterexample :
    (run (stubEnv (.returns true)) "linux" false "file:///proj" none "local"
        (some false)).outcome =
      .error (.launchException "Non synchronous mode not supported")
    ∧ Event.backendRun ∈ (run (stubEnv (.returns true)) "linux" false
        "file:///proj" none "local" (some false)).trace
    ∧ Event.constructRunSpec ∈ (run (stubEnv (.returns true)) "linux" false
        "file:///proj" none "local" (some false)).trace := by
  refine ⟨by decide, by decide, by decide⟩

/-- C2 amended: `run()` with `synchronous=False` raises
`LaunchException("Non synchronous mode not supported")`, but only after
the full pipeline has executed — run spec built, project resolved, backend
loaded and `backend.run` submission performed; only the `wait()` on the
handle is skipped. -/
theorem run_async_raises_after_submission {σ π : Type}
    (env : LaunchEnv σ π) (platform uri resource : String)
    (isLocalUrl : Bool) (da : Option DockerArgs) (b : Backend π)
    (hb : load_backend env resource = some b) :
    (run env platform isLocalUrl uri da resource (some false)).outcome =
      .error (.launchException "Non synchronous mode not supported")
    ∧ (run env platform isLocalUrl uri da resource (some false)).trace =
      [.constructRunSpec, .createProjectFromSpec, .fetchAndValidateProject,
       .loadBackend, .backendRun] := by
  constructor <;> simp [run, _run_ok env uri resource b hb]

/-- Witness for the amended C2 at the stub environment. -/
theorem run_async_raises_after_submission_witness :
    (run (stubEnv (.returns true)) "linux" false "file:///proj" none "local"
        (some false)).outcome =
      .error (.launchException "Non synchronous mode not supported")
    ∧ (run (stubEnv (.returns true)) "linux" false "file:///proj" none
        "local" (some false)).trace =
      [.constructRunSpec, .createProjectFromSpec, .fetchAndValidateProject,
       .loadBackend, .backendRun] :=
  run_async_raises_after_submission (stubEnv (.returns true)) "linux"
    "file:///proj" "local" false none (stubBackend (.returns true)) rfl

/-- C3: for a synchronous `run()` whose backend submission succeeds, a
handle whose `wait()` returns false makes `run()` raise
`ExecutionException("Submitted run failed")`, and a handle whose `wait()`
returns true makes `run()` return that handle without raising. -/
theorem run_sync_wait_result {σ π : Type} (env : LaunchEnv σ π)
    (platform uri resource : String) (isLocalUrl : Bool)
    (da : Option DockerArgs) (b : Backend π)
    (hb : load_backend env resource = some b) :
    ((pipelineHandle env b uri).wait = .returns false →
      (run env platform isLocalUrl uri da resource (some true)).outcome =
        .error (.executionException "Submitted run failed"))
    ∧ ((pipelineHandle env b uri).wait = .returns true →
      (run env platform isLocalUrl uri da resource (some true)).outcome =
        .ok (pipelineHandle env b uri)) := by
  constructor
  · intro hw
    have h1 : _wait_for (pipelineHandle env b uri) =
        ([.waitCalled], .error (.executionException "Submitted run failed")) := by
      simp [_wait_for, hw]
    simp [run, _run_ok env uri resource b hb, h1]
  · intro hw
    have h1 : _wait_for (pipelineHandle env b uri) = ([.waitCalled], .ok ()) := by
      simp [_wait_for, hw]
    simp [run, _run_ok env uri resource b hb, h1]

/-- Witness for C3: both branches at stub environments whose handles'
`wait()` returns false resp. true. -/
theorem run_sync_wait_result_witness :
    (run (stubEnv (.returns false)) "linux" false "file:///proj" none
        "local" (some true)).outcome =
      .error (.executionException "Submitted run failed")
    ∧ (run (stubEnv (.returns true)) "linux" false "file:///proj" none
        "local" (some true)).outcome = .ok ⟨.returns true⟩ :=
  ⟨(run_sync_wait_result (stubEnv (.returns false)) "linux" "file:///proj"
      "local" false none (stubBackend (.returns false)) rfl).1 rfl,
   (run_sync_wait_result (stubEnv (.returns true)) "linux" "file:///proj"
      "local" false none (stubBackend (.returns true)) rfl).2 rfl⟩

/-- C4: for a resource name not in the registry, `load_backend` returns
`None` (not an exception) and `run()` raises `ExecutionException` whose
message names the unknown resource and enumerates every registered backend
name exactly once. -/
theorem run_unknown_backend_message {σ π : Type} (env : LaunchEnv σ π)
    (platform uri resource : String) (isLocalUrl : Bool)
    (da : Option DockerArgs) (synchronous : Option Bool)
    (hnd : (env.runners.map Prod.fst).Nodup)
    (hun : resource ∉ env.runners.map Prod.fst) :
    load_backend env resource = none
    ∧ (run env platform isLocalUrl uri da resource synchronous).outcome =
        .error (.executionException
          (unavailableMessage resource (env.runners.map Prod.fst)))
    ∧ (∃ s t, unavailableMessage resource (env.runners.map Prod.fst) =
        s ++ resource ++ t)
    ∧ (∀ n ∈ env.runners.map Prod.fst,
        (env.runners.map Prod.fst).count n = 1) := by
  have hn := load_backend_eq_none env resource hun
  refine ⟨hn, ?_, ?_, ?_⟩
  · simp [run, _run_none env uri resource hn]
  · exact ⟨"Unavailable backend ",
      ", available backends: " ++
        String.intercalate ", " (env.runners.map Prod.fst),
      by simp [unavailableMessage, String.append_assoc]⟩
  · intro n hmem
    exact List.count_eq_one_of_mem hnd hmem

/-- Witness for C4 at resource "nonexistent" against the stub registry
holding only "local". -/
theorem run_unknown_backend_message_witness :
    load_backend (stubEnv (.returns true)) "nonexistent" = none
    ∧ (run (stubEnv (.returns true)) "linux" false "file:///proj" none
        "nonexistent" (some true)).outcome =
        .error (.executionException
          (unavailableMessage "nonexistent"
            ((stubEnv (.returns true)).runners.map Prod.fst)))
    ∧ (∃ s t, unavailableMessage "nonexistent"
        ((stubEnv (.returns true)).runners.map Prod.fst) =
          s ++ "nonexistent" ++ t)
    ∧ (∀ n ∈ (stubEnv (.returns true)).runners.map Prod.fst,
        ((stubEnv (.returns true)).runners.map Prod.fst).count n = 1) :=
  run_unknown_backend_message (stubEnv (.returns true)) "linux"
    "file:///proj" "nonexistent" false none (some true) (by decide)
    (by decide)

/-- C5: with a locally hosted base URL the injected docker arguments are
exactly the platform table — linux: `network=host` and
`add-host=host.docker.internal:host-gateway`; win32: `net=host` — every
other key is passed through unchanged, and with a non-local base URL no
argument is injected at all. -/
theorem run_docker_args_platform_table {σ π : Type} (env : LaunchEnv σ π)
    (uri resource : String) (da : Option DockerArgs)
    (synchronous : Option Bool) :
    (dictGet "network"
        (run env "linux" true uri da resource synchronous).dockerArgs =
        some "host"
      ∧ dictGet "add-host"
          (run env "linux" true uri da resource synchronous).dockerArgs =
          some "host.docker.internal:host-gateway"
      ∧ ∀ k, k ≠ "network" → k ≠ "add-host" →
          dictGet k
            (run env "linux" true uri da resource synchronous).dockerArgs =
            dictGet k (da.getD []))
    ∧ (dictGet "net"
        (run env "win32" true uri da resource synchronous).dockerArgs =
        some "host"
      ∧ ∀ k, k ≠ "net" →
          dictGet k
            (run env "win32" true uri da resource synchronous).dockerArgs =
            dictGet k (da.getD []))
    ∧ ∀ platform,
        (run env platform false uri da resource synchronous).dockerArgs =
          da.getD [] := by
  have hlin : run_docker_args true "linux" da =
      dictInsert "add-host" "host.docker.internal:host-gateway"
        (dictInsert "network" "host" (da.getD [])) := by
    simp [run_docker_args]
  have hwin : run_docker_args true "win32" da =
      dictInsert "net" "host" (da.getD []) := by
    simp [run_docker_args]
  refine ⟨⟨?_, ?_, ?_⟩, ⟨?_, ?_⟩, ?_⟩
  · rw [run_dockerArgs, hlin,
      dictGet_dictInsert_ne "network" "add-host" _ _ (by decide),
      dictGet_dictInsert_self]
  · rw [run_dockerArgs, hlin, dictGet_dictInsert_self]
  · intro k hk1 hk2
    rw [run_dockerArgs, hlin, dictGet_dictInsert_ne _ _ _ _ hk2,
      dictGet_dictInsert_ne _ _ _ _ hk1]
  · rw [run_dockerArgs, hwin, dictGet_dictInsert_self]
  · intro k hk
    rw [run_dockerArgs, hwin, dictGet_dictInsert_ne _ _ _ _ hk]
  · intro platform
    rw [run_dockerArgs]
    simp [run_docker_args]

/-- Witness for C5 at a docker-args dict holding an unrelated key. -/
theorem run_docker_args_platform_table_witness :
    dictGet "network" (run (stubEnv (.returns true)) "linux" true
        "file:///proj" (some [("foo", "bar")]) "local"
        (some true)).dockerArgs = some "host"
    ∧ dictGet "add-host" (run (stubEnv (.returns true)) "linux" true
        "file:///proj" (some [("foo", "bar")]) "local"
        (some true)).dockerArgs = some "host.docker.internal:host-gateway"
    ∧ dictGet "foo" (run (stubEnv (.returns true)) "linux" true
        "file:///proj" (some [("foo", "bar")]) "local"
        (some true)).dockerArgs = some "bar"
    ∧ dictGet "net" (run (stubEnv (.returns true)) "win32" true
        "file:///proj" (some [("foo", "bar")]) "local"
        (some true)).dockerArgs = some "host"
    ∧ dictGet "foo" (run (stubEnv (.returns true)) "win32" true
        "file:///proj" (some [("foo", "bar")]) "local"
        (some true)).dockerArgs = some "bar"
    ∧ (run (stubEnv (.returns true)) "darwin" false "file:///proj"
        (some [("foo", "bar")]) "local" (some true)).dockerArgs =
        [("foo", "bar")] := by
  have h := run_docker_args_platform_table (stubEnv (.returns true))
    "file:///proj" "local" (some [("foo", "bar")]) (some true)
  exact ⟨h.1.1, h.1.2.1, h.1.2.2 "foo" (by decide) (by decide), h.2.1.1,
    h.2.1.2 "foo" (by decide), h.2.2 "darwin"⟩

/-- C6 counterexample: an exception other than `KeyboardInterrupt`
(here a `RuntimeError`) escaping the blocked `wait()` propagates out of
the synchronous `run()` with zero `cancel()` calls — the cleanup is
best-effort for the single `KeyboardInterrupt` type, not a guaranteed
cancel-on-any-abnormal-exit. -/
theorem wait_cleanup_counterexample :
    (run (stubEnv (.raises (.otherError true "RuntimeError"))) "linux"
        false "file:///proj" none "local" (some true)).outcome =
      .error (.otherError true "RuntimeError")
    ∧ (run (stubEnv (.raises (.otherError true "RuntimeError"))) "linux"
        false "file:///proj" none "local" (some true)).trace.count
        .cancelCalled = 0 := by
  refine ⟨by decide, by decide⟩

/-- C6 amended: for an exception escaping the blocked `wait()`, `cancel()`
is called on the handle exactly when that exception is
`KeyboardInterrupt`; any other exception propagates to the caller with no
`cancel()` call. -/
theorem wait_cancel_only_on_interrupt {σ π : Type} (env : LaunchEnv σ π)
    (platform uri resource : String) (isLocalUrl : Bool)
    (da : Option DockerArgs) (b : Backend π) (e : PyExc)
    (hb : load_backend env resource = some b)
    (hw : (pipelineHandle env b uri).wait = .raises e) :
    (run env platform isLocalUrl uri da resource (some true)).outcome =
      .error e
    ∧ (run env platform isLocalUrl uri da resource (some true)).trace.count
        .cancelCalled = (if e = .keyboardInterrupt then 1 else 0) := by
  cases e with
  | keyboardInterrupt =>
    have h1 : _wait_for (pipelineHandle env b uri) =
        ([.waitCalled, .cancelCalled], .error .keyboardInterrupt) := by
      simp [_wait_for, hw]
    constructor <;>
      simp [run, _run_ok env uri resource b hb, h1, List.count_cons]
  | executionException msg =>
    have h1 : _wait_for (pipelineHandle env b uri) =
        ([.waitCalled], .error (.executionException msg)) := by
      simp [_wait_for, hw]
    constructor <;>
      simp [run, _run_ok env uri resource b hb, h1, List.count_cons]
  | launchException msg =>
    have h1 : _wait_for (pipelineHandle env b uri) =
        ([.waitCalled], .error (.launchException msg)) := by
      simp [_wait_for, hw]
    constructor <;>
      simp [run, _run_ok env uri resource b hb, h1, List.count_cons]
  | otherError sub nm =>
    have h1 : _wait_for (pipelineHandle env b uri) =
        ([.waitCalled], .error (.otherError sub nm)) := by
      simp [_wait_for, hw]
    constructor <;>
      simp [run, _run_ok env uri resource b hb, h1, List.count_cons]

/-- Witness for the amended C6 at a `RuntimeError`-raising handle. -/
theorem wait_cancel_only_on_interrupt_witness :
    (run (stubEnv (.raises (.otherError true "ValueError"))) "linux" false
        "file:///p2" none "local" (some true)).outcome =
      .error (.otherError true "ValueError")
    ∧ (run (stubEnv (.raises (.otherError true "ValueError"))) "linux"
        false "file:///p2" none "local" (some true)).trace.count
        .cancelCalled =
        (if (PyExc.otherError true "ValueError") = .keyboardInterrupt
          then 1 else 0) :=
  wait_cancel_only_on_interrupt
    (stubEnv (.raises (.otherError true "ValueError"))) "linux" "file:///p2"
    "local" false none (stubBackend (.raises (.otherError true "ValueError")))
    (.otherError true "ValueError") rfl rfl

/-- C7 counterexample: a `KeyboardInterrupt` raised by
`api.push_to_run_queue` is not caught by the `except Exception` clause:
`push_to_queue` propagates it instead of returning `None`. -/
theorem push_to_queue_counterexample :
    push_to_queue (.error .keyboardInterrupt : Except PyExc Unit) =
      .error .keyboardInterrupt
    ∧ push_to_queue (.error .keyboardInterrupt : Except PyExc Unit) ≠
      .ok none := by
  refine ⟨rfl, by decide⟩

/-- C7 amended: `push_to_queue` returns `None` without raising when the
underlying call raises an exception deriving from `Exception`; an
exception outside the `Exception` hierarchy (such as `KeyboardInterrupt`)
propagates uncaught; on success the API result is returned unchanged. -/
theorem push_to_queue_error_contract {ρ : Type} (apiCall : Except PyExc ρ) :
    (∀ r, apiCall = .ok r → push_to_queue apiCall = .ok (some r))
    ∧ (∀ e, apiCall = .error e → e.isExceptionSubclass = true →
        push_to_queue apiCall = .ok none)
    ∧ (∀ e, apiCall = .error e → e.isExceptionSubclass = false →
        push_to_queue apiCall = .error e) := by
  refine ⟨?_, ?_, ?_⟩
  · intro r hr
    subst hr
    rfl
  · intro e he hsub
    subst he
    simp [push_to_queue, hsub]
  · intro e he hsub
    subst he
    simp [push_to_queue, hsub]

/-- Witness for the amended C7: success, an `Exception` subclass, and
`KeyboardInterrupt`. -/
theorem push_to_queue_error_contract_witness :
    push_to_queue (.ok () : Except PyExc Unit) = .ok (some ())
    ∧ push_to_queue
        (.error (.executionException "boom") : Except PyExc Unit) = .ok none
    ∧ push_to_queue (.error .keyboardInterrupt : Except PyExc Unit) =
        .error .keyboardInterrupt :=
  ⟨(push_to_queue_error_contract (.ok ())).1 () rfl,
   (push_to_queue_error_contract
      (.error (.executionException "boom"))).2.1 _ rfl rfl,
   (push_to_queue_error_contract (.error .keyboardInterrupt)).2.2 _ rfl rfl⟩

/-- C8: a successful synchronous `run()` executes the stages in the fixed
order construct run spec, create project from spec, fetch and validate
project, load backend, backend submission, and only then blocks on the
handle's `wait()`, returning the handle. -/
theorem run_pipeline_order {σ π : Type} (env : LaunchEnv σ π)
    (platform uri resource : String) (isLocalUrl : Bool)
    (da : Option DockerArgs) (b : Backend π)
    (hb : load_backend env resource = some b)
    (hw : (pipelineHandle env b uri).wait = .returns true) :
    run env platform isLocalUrl uri da resource (some true) =
      ⟨run_docker_args isLocalUrl platform da,
       [.constructRunSpec, .createProjectFromSpec, .fetchAndValidateProject,
        .loadBackend, .backendRun, .waitCalled],
       .ok (pipelineHandle env b uri)⟩ := by
  have h1 : _wait_for (pipelineHandle env b uri) = ([.waitCalled], .ok ()) := by
    simp [_wait_for, hw]
  simp [run, _run_ok env uri resource b hb, h1]

/-- Witness for C8 at the stub environment with a succeeding handle. -/
theorem run_pipeline_order_witness :
    run (stubEnv (.returns true)) "linux" false "file:///proj" none "local"
        (some true) =
      ⟨run_docker_args false "linux" none,
       [.constructRunSpec, .createProjectFromSpec, .fetchAndValidateProject,
        .loadBackend, .backendRun, .waitCalled],
       .ok (pipelineHandle (stubEnv (.returns true))
         (stubBackend (.returns true)) "file:///proj")⟩ :=
  run_pipeline_order (stubEnv (.returns true)) "linux" "file:///proj"
    "local" false none (stubBackend (.returns true)) rfl rfl

/-- C9: on every platform other than `win32` (darwin included), a locally
hosted base URL makes `run()` inject `network=host`: the injection branch
is the `else` of the `win32` test, not restricted to linux. -/
theorem run_nonwin32_injects_network {σ π : Type} (env : LaunchEnv σ π)
    (platform uri resource : String) (da : Option DockerArgs)
    (synchronous : Option Bool) (hp : platform ≠ "win32") :
    dictGet "network"
      (run env platform true uri da resource synchronous).dockerArgs =
      some "host" := by
  rw [run_dockerArgs]
  by_cases hl : platform = "linux" ∨ platform = "linux2"
  · simp only [run_docker_args, if_pos hl, if_neg hp, if_pos rfl,
      if_pos trivial]
    rw [dictGet_dictInsert_ne "network" "add-host" _ _ (by decide),
      dictGet_dictInsert_self]
  · simp only [run_docker_args, if_neg hl, if_neg hp, if_pos rfl,
      if_pos trivial]
    rw [dictGet_dictInsert_self]

/-- Witness for C9 at platform darwin. -/
theorem run_nonwin32_injects_network_witness :
    dictGet "network" (run (stubEnv (.returns true)) "darwin" true
        "file:///proj" none "local" (some true)).dockerArgs = some "host" :=
  run_nonwin32_injects_network (stubEnv (.returns true)) "darwin"
    "file:///proj" "local" none (some true) (by decide)

/-- C10: with a locally hosted base URL and a caller-supplied docker-args
dict, the injected entries overwrite any existing values for their keys
(on linux `network` and `add-host`, on win32 `net`), and every key not
injected on that platform — including `net` on linux — keeps the value the
caller passed. -/
theorem run_docker_args_overwrite_frame {σ π : Type} (env : LaunchEnv σ π)
    (uri resource : String) (da0 : DockerArgs) (synchronous : Option Bool) :
    (dictGet "network" (run env "linux" true uri (some da0) resource
        synchronous).dockerArgs = some "host"
      ∧ dictGet "add-host" (run env "linux" true uri (some da0) resource
          synchronous).dockerArgs =
          some "host.docker.internal:host-gateway"
      ∧ ∀ k, k ≠ "network" → k ≠ "add-host" →
          dictGet k (run env "linux" true uri (some da0) resource
            synchronous).dockerArgs = dictGet k da0)
    ∧ (dictGet "net" (run env "win32" true uri (some da0) resource
        synchronous).dockerArgs = some "host"
      ∧ ∀ k, k ≠ "net" →
          dictGet k (run env "win32" true uri (some da0) resource
            synchronous).dockerArgs = dictGet k da0) := by
  have hlin : run_docker_args true "linux" (some da0) =
      dictInsert "add-host" "host.docker.internal:host-gateway"
        (dictInsert "network" "host" da0) := by
    simp [run_docker_args]
  have hwin : run_docker_args true "win32" (some da0) =
      dictInsert "net" "host" da0 := by
    simp [run_docker_args]
  refine ⟨⟨?_, ?_, ?_⟩, ⟨?_, ?_⟩⟩
  · rw [run_dockerArgs, hlin,
      dictGet_dictInsert_ne "network" "add-host" _ _ (by decide),
      dictGet_dictInsert_self]
  · rw [run_dockerArgs, hlin, dictGet_dictInsert_self]
  · intro k hk1 hk2
    rw [run_dockerArgs, hlin, dictGet_dictInsert_ne _ _ _ _ hk2,
      dictGet_dictInsert_ne _ _ _ _ hk1]
  · rw [run_dockerArgs, hwin, dictGet_dictInsert_self]
  · intro k hk
    rw [run_dockerArgs, hwin, dictGet_dictInsert_ne _ _ _ _ hk]

/-- Witness for C10: a dict with pre-existing `network`, `net` and an
unrelated key; on linux `network` is overwritten while `net` and the
unrelated key keep their caller-supplied values. -/
theorem run_docker_args_overwrite_frame_witness :
    dictGet "network" (run (stubEnv (.returns true)) "linux" true
        "file:///proj" (some [("network", "bridge"), ("net", "bridge"),
        ("env", "A=1")]) "local" (some true)).dockerArgs = some "host"
    ∧ dictGet "add-host" (run (stubEnv (.returns true)) "linux" true
        "file:///proj" (some [("network", "bridge"), ("net", "bridge"),
        ("env", "A=1")]) "local" (some true)).dockerArgs =
        some "host.docker.internal:host-gateway"
    ∧ dictGet "net" (run (stubEnv (.returns true)) "linux" true
        "file:///proj" (some [("network", "bridge"), ("net", "bridge"),
        ("env", "A=1")]) "local" (some true)).dockerArgs = some "bridge"
    ∧ dictGet "env" (run (stubEnv (.returns true)) "linux" true
        "file:///proj" (some [("network", "bridge"), ("net", "bridge"),
        ("env", "A=1")]) "local" (some true)).dockerArgs = some "A=1"
    ∧ dictGet "net" (run (stubEnv (.returns true)) "win32" true
        "file:///proj" (some [("network", "bridge"), ("net", "bridge"),
        ("env", "A=1")]) "local" (some true)).dockerArgs = some "host" := by
  have h := run_docker_args_overwrite_frame (stubEnv (.returns true))
    "file:///proj" "local"
    [("network", "bridge"), ("net", "bridge"), ("env", "A=1")] (some true)
  exact ⟨h.1.1, h.1.2.1, h.1.2.2 "net" (by decide) (by decide),
    h.1.2.2 "env" (by decide) (by decide), h.2.1⟩

end Launch
